import Mathlib

set_option linter.unusedVariables false

/- A shallow embedding of instruktorji.py: a registration form for student
   tutors, persisted into a local SQLite table (authoritative) and mirrored
   best-effort into a Google Sheet, with an admin listing, delete and CSV
   export. Each Lean definition below is translated from the source file;
   source names are kept. -/

/-- A parsed HTTP form body: ordered key-value pairs. Lookup returns the
first binding of a key, mirroring request.form.get. -/
abbrev Form := List (String × String)

/-- request.form.get(k): first value bound to k, or None when absent. -/
def fget (f : Form) (k : String) : Option String :=
  (f.find? (fun p => p.1 == k)).map (fun p => p.2)

/-- request.form.get(k, d): lookup with a default. -/
def fgetD (f : Form) (k d : String) : String :=
  (fget f k).getD d

/-- str.strip(): drop whitespace from both ends. -/
def py_strip (s : String) : String :=
  String.mk (((s.data.dropWhile Char.isWhitespace).reverse.dropWhile Char.isWhitespace).reverse)

/-- f.get(k, "").strip(): trimmed field value, empty when absent. -/
def trimF (f : Form) (k : String) : String :=
  py_strip (fgetD f k "")

instance {ε α : Type} [DecidableEq ε] [DecidableEq α] : DecidableEq (Except ε α)
  | Except.ok a, Except.ok b =>
    if h : a = b then isTrue (by rw [h]) else isFalse (fun hh => h (Except.ok.inj hh))
  | Except.ok _, Except.error _ => isFalse (fun hh => Except.noConfusion hh)
  | Except.error _, Except.ok _ => isFalse (fun hh => Except.noConfusion hh)
  | Except.error e, Except.error e' =>
    if h : e = e' then isTrue (by rw [h]) else isFalse (fun hh => h (Except.error.inj hh))

/-- PREDMETI: the fixed subject catalog, pairs (code, label), in source order. -/
def PREDMETI : List (String × String) := [
  ("mat","Matematika"), ("fiz","Fizika"), ("ang","Angleščina"),
  ("inf","Informatika"), ("kem","Kemija"), ("nem","Nemščina"),
  ("slo","Slovenščina"), ("bio","Biologija"), ("zgod","Zgodovina"),
  ("geo","Geografija"), ("spa","Španščina"), ("ita","Italijanščina"),
  ("fra","Francoščina")]

/-- The four grade_level options offered by the form's razred select. -/
def RAZREDI : List String := ["1. letnik", "2. letnik", "3. letnik", "4. letnik"]

/-- The six single-letter section options offered by the form's oddelek select. -/
def ODDELKI : List String := ["a", "b", "c", "d", "e", "f"]

/-- The combined required-fields rejection flashed by oddaj. -/
def required_msg : String :=
  "Izpolnite vsa obvezna polja (ime, priimek, e-pošta, razred, oddelek)."

/-- The per-subject rejection flashed by oddaj, naming the offending label. -/
def subject_msg (label : String) : String :=
  "Vnesite učitelja pri predmetu " ++ label ++ "."

/-- The success acknowledgment flashed by oddaj. -/
def success_msg : String := "Hvala! Prijava je shranjena."

/-- The test `not all([ime, priimek, email, razred, oddelek])` of oddaj:
true when some required field is empty after trimming. -/
def required_missing (f : Form) : Bool :=
  [trimF f "ime", trimF f "priimek", trimF f "email",
   trimF f "razred", trimF f "oddelek"].any (fun s => s == "")

/-- The subject loop of oddaj over a catalog: for each (code, label) whose
checkbox value is exactly "on", the trimmed teacher field must be non-empty,
else the loop stops with that label (fail-fast); otherwise it collects
"label (teacher)" in catalog order. -/
def build_pari (f : Form) : List (String × String) → Except String (List String)
  | [] => Except.ok []
  | p :: rest =>
    if fget f ("chk_" ++ p.1) == some "on" then
      let teacher := py_strip (fgetD f ("teacher_" ++ p.1) "")
      if teacher == "" then Except.error p.2
      else (build_pari f rest).map (fun ps => (p.2 ++ " (" ++ teacher ++ ")") :: ps)
    else build_pari f rest

/-- The subjects of the catalog whose checkbox value is exactly "on". -/
def checked_subjects (f : Form) : List (String × String) :=
  PREDMETI.filter (fun p => fget f ("chk_" ++ p.1) == some "on")

/-- A catalog entry is offending when its checkbox is "on" but the trimmed
teacher field is empty. -/
def offending (f : Form) (p : String × String) : Bool :=
  (fget f ("chk_" ++ p.1) == some "on") && (py_strip (fgetD f ("teacher_" ++ p.1) "") == "")

/-- The first offending catalog entry in catalog order, if any. -/
def first_offending (f : Form) : Option (String × String) :=
  PREDMETI.find? (offending f)

/-- One row of the instruktors table. -/
structure Record where
  id : Nat
  datum : String
  ime : String
  priimek : String
  email : String
  razred : String
  oddelek : String
  predmeti : String
deriving Repr, DecidableEq

/-- The SQLite store: the table rows plus the AUTOINCREMENT counter
(the next id, never reused). -/
structure Store where
  nextId : Nat
  rows : List Record
deriving Repr, DecidableEq

/-- add_vnos: INSERT one row with a fresh id. The second component is the
Python function's return value: the source body has no return statement, so
the function returns None, modelled as `none`. -/
def add_vnos (st : Store) (now ime priimek email razred oddelek predmeti_str : String) :
    Store × Option Nat :=
  ({ nextId := st.nextId + 1,
     rows := st.rows ++ [{ id := st.nextId, datum := now, ime := ime,
                           priimek := priimek, email := email, razred := razred,
                           oddelek := oddelek, predmeti := predmeti_str }] },
   none)

/-- The ORDER BY id DESC relation used by all_vnosi. -/
def idDesc (a b : Record) : Prop := b.id ≤ a.id

instance : DecidableRel idDesc := fun a b => Nat.decLe b.id a.id

instance : IsTotal Record idDesc := ⟨fun a b => Nat.le_total b.id a.id⟩

instance : IsTrans Record idDesc := ⟨fun a b c hab hbc => Nat.le_trans hbc hab⟩

/-- all_vnosi: SELECT every row ORDER BY id DESC. -/
def all_vnosi (st : Store) : List Record :=
  List.insertionSort idDesc st.rows

/-- delete_vnos: DELETE FROM instruktors WHERE id = row_id. -/
def delete_vnos (st : Store) (row_id : Nat) : Store :=
  { st with rows := st.rows.filter (fun r => r.id != row_id) }

/-- The application state oddaj acts on: the local SQLite store and the
mirrored sheet (list of appended rows). -/
structure AppState where
  store : Store
  sheet : List (List String)
deriving Repr, DecidableEq

/-- The environment's outcome for the Google Sheets mirror on one request:
the sheet is reachable and the append succeeds, the worksheet handle is None
(no connection, write skipped), or the append raises inside the try block. -/
inductive MirrorOutcome
  | ok
  | unavailable
  | writeError
deriving Repr, DecidableEq

/-- Observable events of one oddaj request, in the order the source
performs them. -/
inductive Ev
  | localWrite
  | localRaise
  | mirrorAttempt
  | mirrorSkipLog
  | mirrorFailLog
deriving Repr, DecidableEq

/-- The HTTP-visible outcome of oddaj: a flashed error with redirect, a
flashed success with redirect, or an uncaught exception. -/
inductive Outcome
  | flashError (msg : String)
  | flashOk (msg : String)
  | raised
deriving Repr, DecidableEq

/-- Result of one oddaj request: final state, event trace, outcome. -/
structure OddajOut where
  state : AppState
  events : List Ev
  outcome : Outcome
deriving Repr, DecidableEq

/-- oddaj: the POST /oddaj handler. `now1` and `now2` are the two
datetime.now() readings (one inside add_vnos, one for the sheet row);
`localFault` tells whether the SQLite INSERT raises (a store fault), and
`m` is the mirror environment's outcome, only consulted when the local
write completed. -/
def oddaj (f : Form) (st : AppState) (now1 now2 : String)
    (localFault : Bool) (m : MirrorOutcome) : OddajOut :=
  let ime := trimF f "ime"
  let priimek := trimF f "priimek"
  let email := trimF f "email"
  let razred := trimF f "razred"
  let oddelek := trimF f "oddelek"
  if required_missing f then
    { state := st, events := [], outcome := Outcome.flashError required_msg }
  else
    match build_pari f PREDMETI with
    | Except.error label =>
      { state := st, events := [], outcome := Outcome.flashError (subject_msg label) }
    | Except.ok pari =>
      let predmeti_str := if pari.isEmpty then "—" else String.intercalate "; " pari
      if localFault then
        { state := st, events := [Ev.localRaise], outcome := Outcome.raised }
      else
        let store1 := (add_vnos st.store now1 ime priimek email razred oddelek predmeti_str).1
        match m with
        | MirrorOutcome.ok =>
          { state := { store := store1,
                       sheet := st.sheet ++ [[now2, ime, priimek, email, razred, oddelek, predmeti_str]] },
            events := [Ev.localWrite, Ev.mirrorAttempt],
            outcome := Outcome.flashOk success_msg }
        | MirrorOutcome.unavailable =>
          { state := { store := store1, sheet := st.sheet },
            events := [Ev.localWrite, Ev.mirrorSkipLog],
            outcome := Outcome.flashOk success_msg }
        | MirrorOutcome.writeError =>
          { state := { store := store1, sheet := st.sheet },
            events := [Ev.localWrite, Ev.mirrorAttempt, Ev.mirrorFailLog],
            outcome := Outcome.flashOk success_msg }

/-- UTF-8 encoding of one character, as the list of its byte values. -/
def utf8EncodeCharM (c : Char) : List Nat :=
  let n := c.toNat
  if n < 0x80 then [n]
  else if n < 0x800 then
    [0xC0 ||| (n >>> 6), 0x80 ||| (n &&& 0x3F)]
  else if n < 0x10000 then
    [0xE0 ||| (n >>> 12), 0x80 ||| ((n >>> 6) &&& 0x3F), 0x80 ||| (n &&& 0x3F)]
  else
    [0xF0 ||| (n >>> 18), 0x80 ||| ((n >>> 12) &&& 0x3F),
     0x80 ||| ((n >>> 6) &&& 0x3F), 0x80 ||| (n &&& 0x3F)]

/-- UTF-8 encoding of a string, as a list of byte values. -/
def utf8Bytes (s : String) : List Nat :=
  s.data.flatMap utf8EncodeCharM

/-- The csv module's QUOTE_MINIMAL test for delimiter ';': a field is quoted
when it contains the delimiter, the quotechar, or a line break. -/
def csv_needs_quote (s : String) : Bool :=
  s.any (fun c => c == ';' || c == '"' || c == '\r' || c == '\n')

/-- Double every quotechar inside a quoted field. -/
def csv_escape (s : String) : String :=
  String.mk (s.data.flatMap (fun c => if c == '"' then ['"', '"'] else [c]))

/-- One serialized field under csv.writer(delimiter=';'). -/
def csv_field (s : String) : String :=
  if csv_needs_quote s then "\"" ++ csv_escape s ++ "\"" else s

/-- One serialized row: fields joined by ';' and the default csv line
terminator. -/
def csv_row (fields : List String) : String :=
  String.intercalate ";" (fields.map csv_field) ++ "\r\n"

/-- The literal header row written first by export_csv. -/
def CSV_HEADER : List String :=
  ["ID", "Datum", "Ime", "Priimek", "E-pošta", "Razred", "Oddelek", "Predmeti (učitelj)"]

/-- list(r): the eight field values of one row, in SELECT column order. -/
def record_fields (r : Record) : List String :=
  [Nat.repr r.id, r.datum, r.ime, r.priimek, r.email, r.razred, r.oddelek, r.predmeti]

/-- The lines export_csv writes: header first, then one row per record in
all_vnosi order. -/
def export_lines (st : Store) : List String :=
  csv_row CSV_HEADER :: (all_vnosi st).map (fun r => csv_row (record_fields r))

/-- buf.getvalue(): the whole CSV text. -/
def export_csv (st : Store) : String :=
  String.join (export_lines st)

/-- buf.getvalue().encode("utf-8-sig"): the UTF-8 byte-order marker followed
by the UTF-8 encoding of the CSV text. -/
def export_csv_bytes (st : Store) : List Nat :=
  [0xEF, 0xBB, 0xBF] ++ utf8Bytes (export_csv st)

/-- Connection-level events of one SQLite helper call. -/
inductive DbEv
  | connect
  | executeOk
  | raiseErr
  | commit
  | close
deriving Repr, DecidableEq

/-- Connection trace of add_vnos: connect, execute (which may raise and
propagate, skipping every later statement), commit, close. There is no
try/finally around the body, so a raise skips con.close(). -/
def add_vnos_conn_trace (execFails : Bool) : List DbEv :=
  if execFails then [DbEv.connect, DbEv.raiseErr]
  else [DbEv.connect, DbEv.executeOk, DbEv.commit, DbEv.close]

/-- Connection trace of all_vnosi (no commit in the source). -/
def all_vnosi_conn_trace (execFails : Bool) : List DbEv :=
  if execFails then [DbEv.connect, DbEv.raiseErr]
  else [DbEv.connect, DbEv.executeOk, DbEv.close]

/-- Connection trace of delete_vnos. -/
def delete_vnos_conn_trace (execFails : Bool) : List DbEv :=
  if execFails then [DbEv.connect, DbEv.raiseErr]
  else [DbEv.connect, DbEv.executeOk, DbEv.commit, DbEv.close]

/-- Connection trace of init_db. -/
def init_db_conn_trace (execFails : Bool) : List DbEv :=
  if execFails then [DbEv.connect, DbEv.raiseErr]
  else [DbEv.connect, DbEv.executeOk, DbEv.commit, DbEv.close]

/-- The persisted subjects summary: "; "-joined pairs, or the em-dash
placeholder when no subject was checked. -/
def predmeti_str_of (pari : List String) : String :=
  if pari.isEmpty then "—" else String.intercalate "; " pari

/-- The record oddaj inserts on success, given the store's next id. -/
def inserted_record (f : Form) (now1 : String) (nid : Nat) (pari : List String) : Record :=
  { id := nid, datum := now1, ime := trimF f "ime", priimek := trimF f "priimek",
    email := trimF f "email", razred := trimF f "razred", oddelek := trimF f "oddelek",
    predmeti := predmeti_str_of pari }

/-- The row oddaj appends to the mirror sheet on success. -/
def sheet_row (f : Form) (now2 : String) (pari : List String) : List String :=
  [now2, trimF f "ime", trimF f "priimek", trimF f "email", trimF f "razred",
   trimF f "oddelek", predmeti_str_of pari]

/-- An empty store whose auto-increment counter starts at 1. -/
def st0 : Store := { nextId := 1, rows := [] }

/-- An empty application state. -/
def app0 : AppState := { store := st0, sheet := [] }

/-- Two-record store used to witness C9. -/
def c9_st : Store :=
  { nextId := 3,
    rows := [{ id := 1, datum := "d1", ime := "A", priimek := "B", email := "e1",
               razred := "1. letnik", oddelek := "a", predmeti := "—" },
             { id := 2, datum := "d2", ime := "C", priimek := "D", email := "e2",
               razred := "2. letnik", oddelek := "b", predmeti := "—" }] }

/-- A fully valid submission used in witnesses: Matematika checked with
teacher Kovač. -/
def c1_wform : Form :=
  [("ime", "Ana"), ("priimek", "Novak"), ("email", "a@x.si"),
   ("razred", "2. letnik"), ("oddelek", "b"), ("chk_mat", "on"), ("teacher_mat", "Kovač")]

/-- A submission with Matematika checked and no teacher, but with every
required field missing: used to refute C2 as stated. -/
def c2_cex_form : Form := [("chk_mat", "on")]

/-- A submission with required fields present, Fizika checked without a
teacher and Kemija checked with a blank teacher. -/
def c2_wform : Form :=
  [("ime", "Ana"), ("priimek", "Novak"), ("email", "a@x.si"),
   ("razred", "2. letnik"), ("oddelek", "b"),
   ("chk_fiz", "on"), ("chk_kem", "on"), ("teacher_kem", " ")]

/-- A valid submission with Fizika submitted before Matematika in the form
body; the catalog orders Matematika first. -/
def c3_wform : Form :=
  [("ime", "Eva"), ("priimek", "Kranjc"), ("email", "e@x.si"),
   ("razred", "3. letnik"), ("oddelek", "c"),
   ("chk_fiz", "on"), ("teacher_fiz", "Newton"),
   ("chk_mat", "on"), ("teacher_mat", "Gauss")]

/-- A submission whose razred and oddelek values lie outside the form's
enumerated option sets. -/
def c6_cex_form : Form :=
  [("ime", "Ana"), ("priimek", "Novak"), ("email", "a@x.si"),
   ("razred", "7. letnik"), ("oddelek", "x")]

/-- Form with Matematika checked and Fizika carrying a non-"on" checkbox
value. -/
def c10_wf : Form :=
  [("chk_mat", "on"), ("teacher_mat", "Kovač"), ("chk_fiz", "maybe")]

/-- Same form plus a stray teacher value for the unchecked Fizika. -/
def c10_wg : Form :=
  [("chk_mat", "on"), ("teacher_mat", "Kovač"), ("chk_fiz", "maybe"),
   ("teacher_fiz", "Ignored")]

/- ------------------------------------------------------------------ -/
/- Helper lemmas                                                       -/
/- ------------------------------------------------------------------ -/

/-- find? returns the first element satisfying the predicate: the list
splits at the found element and everything before it fails the predicate. -/
theorem find?_eq_some_split {α : Type} (p : α → Bool) :
    ∀ (l : List α) (a : α), l.find? p = some a →
      ∃ l1 l2, l = l1 ++ a :: l2 ∧ p a = true ∧ ∀ x ∈ l1, p x = false := by
  intro l
  induction l with
  | nil => intro a h; cases h
  | cons x xs ih =>
    intro a h
    by_cases hx : p x = true
    · rw [List.find?_cons_of_pos _ hx] at h
      cases h
      exact ⟨[], xs, rfl, hx, by intro y hy; cases hy⟩
    · have hx' : ¬ p x := hx
      rw [List.find?_cons_of_neg _ hx'] at h
      obtain ⟨l1, l2, hsplit, hpa, hall⟩ := ih a h
      refine ⟨x :: l1, l2, by rw [hsplit]; rfl, hpa, ?_⟩
      intro y hy
      cases hy with
      | head => exact Bool.eq_false_iff.mpr hx
      | tail _ hy => exact hall y hy

/-- When the catalog holds an offending entry, build_pari stops with the
first one's label. -/
theorem build_pari_error_of_find (f : Form) :
    ∀ (cat : List (String × String)) (p : String × String),
      cat.find? (offending f) = some p → build_pari f cat = Except.error p.2 := by
  intro cat
  induction cat with
  | nil => intro p h; cases h
  | cons q rest ih =>
    intro p h
    by_cases hq : offending f q = true
    · rw [List.find?_cons_of_pos _ hq] at h
      cases h
      have hc := (Bool.and_eq_true _ _).mp hq
      simp only [build_pari, hc.1, if_true]
      simp [hc.2]
    · have hq' : ¬ offending f q := hq
      rw [List.find?_cons_of_neg _ hq'] at h
      have hrest := ih p h
      have hq2 : offending f q = false := Bool.eq_false_iff.mpr hq'
      simp only [offending, Bool.and_eq_false_iff] at hq2
      cases hq2 with
      | inl hc =>
        simp only [build_pari, hc, Bool.false_eq_true, if_false]
        exact hrest
      | inr ht =>
        by_cases hc : (fget f ("chk_" ++ q.1) == some "on") = true
        · simp only [build_pari, hc, if_true, ht, Bool.false_eq_true, if_false, hrest]
          rfl
        · have hc' : (fget f ("chk_" ++ q.1) == some "on") = false := Bool.eq_false_iff.mpr hc
          simp only [build_pari, hc', Bool.false_eq_true, if_false]
          exact hrest

/-- When build_pari succeeds, its result lists exactly the checked subjects
in catalog order, each rendered as "label (teacher)". -/
theorem build_pari_ok_eq (f : Form) :
    ∀ (cat : List (String × String)) (ps : List String),
      build_pari f cat = Except.ok ps →
      ps = (cat.filter (fun p => fget f ("chk_" ++ p.1) == some "on")).map
            (fun p => p.2 ++ " (" ++ py_strip (fgetD f ("teacher_" ++ p.1) "") ++ ")") := by
  intro cat
  induction cat with
  | nil =>
    intro ps h
    cases h
    rfl
  | cons q rest ih =>
    intro ps h
    by_cases hc : (fget f ("chk_" ++ q.1) == some "on") = true
    · by_cases ht : (py_strip (fgetD f ("teacher_" ++ q.1) "") == "") = true
      · simp only [build_pari, hc, if_true, ht] at h
        exact Except.noConfusion h
      · have ht' : (py_strip (fgetD f ("teacher_" ++ q.1) "") == "") = false :=
          Bool.eq_false_iff.mpr ht
        simp only [build_pari, hc, if_true, ht', Bool.false_eq_true, if_false] at h
        cases hrest : build_pari f rest with
        | error e => rw [hrest] at h; cases h
        | ok ps' =>
          rw [hrest] at h
          simp only [Except.map] at h
          cases h
          rw [ih ps' hrest]
          simp [List.filter_cons, hc]
      -- done with checked branch
    · have hc' : (fget f ("chk_" ++ q.1) == some "on") = false := Bool.eq_false_iff.mpr hc
      simp only [build_pari, hc', Bool.false_eq_true, if_false] at h
      simp only [List.filter_cons, hc']
      exact ih ps h

/-- build_pari reads only the checkbox value of every catalog entry and the
teacher value of the checked ones: two forms agreeing there agree on the
result. In particular a teacher value supplied for an unchecked subject is
ignored entirely. -/
theorem build_pari_ext (f g : Form) :
    ∀ (cat : List (String × String)),
      (∀ q ∈ cat, fget g ("chk_" ++ q.1) = fget f ("chk_" ++ q.1) ∧
        (fget f ("chk_" ++ q.1) = some "on" →
          fget g ("teacher_" ++ q.1) = fget f ("teacher_" ++ q.1))) →
      build_pari g cat = build_pari f cat := by
  intro cat
  induction cat with
  | nil => intro _; rfl
  | cons q rest ih =>
    intro h
    have hq := h q (List.mem_cons_self q rest)
    have hrest := ih (fun r hr => h r (List.mem_cons_of_mem q hr))
    by_cases hc : (fget f ("chk_" ++ q.1) == some "on") = true
    · have hceq : fget f ("chk_" ++ q.1) = some "on" := by
        exact beq_iff_eq.mp hc
      have hgc : (fget g ("chk_" ++ q.1) == some "on") = true := by
        rw [hq.1]; exact hc
      have hteq : fgetD g ("teacher_" ++ q.1) "" = fgetD f ("teacher_" ++ q.1) "" := by
        unfold fgetD
        rw [hq.2 hceq]
      simp only [build_pari, hc, hgc, if_true, hteq, hrest]
    · have hc' : (fget f ("chk_" ++ q.1) == some "on") = false := Bool.eq_false_iff.mpr hc
      have hgc : (fget g ("chk_" ++ q.1) == some "on") = false := by
        rw [hq.1]; exact hc'
      simp only [build_pari, hc', hgc, Bool.false_eq_true, if_false]
      exact hrest

/-- required_missing holds exactly when one of the five required fields is
empty after trimming. -/
theorem required_missing_iff (f : Form) :
    required_missing f = true ↔
      (trimF f "ime" = "" ∨ trimF f "priimek" = "" ∨ trimF f "email" = "" ∨
       trimF f "razred" = "" ∨ trimF f "oddelek" = "") := by
  simp [required_missing]

example : trimF [("ime", "  Ana ")] "ime" = "Ana" := by decide

example :
    build_pari [("chk_mat", "on"), ("teacher_mat", "Kovač")] PREDMETI =
      Except.ok ["Matematika (Kovač)"] := by decide

example : build_pari [("chk_fiz", "on")] PREDMETI = Except.error "Fizika" := by decide

/-- oddaj with a missing required field: single combined rejection, no
state change, no events. -/
theorem oddaj_eq_required (f : Form) (st : AppState) (now1 now2 : String)
    (lf : Bool) (m : MirrorOutcome) (h : required_missing f = true) :
    oddaj f st now1 now2 lf m =
      { state := st, events := [], outcome := Outcome.flashError required_msg } := by
  simp [oddaj, h]

/-- oddaj with a checked subject missing its teacher: rejection naming the
label build_pari stopped at, no state change, no events. -/
theorem oddaj_eq_subject (f : Form) (st : AppState) (now1 now2 : String)
    (lf : Bool) (m : MirrorOutcome) (label : String)
    (h1 : required_missing f = false)
    (h2 : build_pari f PREDMETI = Except.error label) :
    oddaj f st now1 now2 lf m =
      { state := st, events := [], outcome := Outcome.flashError (subject_msg label) } := by
  simp [oddaj, h1, h2]

/-- oddaj when the SQLite INSERT raises: the exception propagates, nothing
is written anywhere, and the mirror is never attempted. -/
theorem oddaj_eq_fault (f : Form) (st : AppState) (now1 now2 : String)
    (m : MirrorOutcome) (pari : List String)
    (h1 : required_missing f = false)
    (h2 : build_pari f PREDMETI = Except.ok pari) :
    oddaj f st now1 now2 true m =
      { state := st, events := [Ev.localRaise], outcome := Outcome.raised } := by
  simp [oddaj, h1, h2]

/-- oddaj on the happy path with a reachable mirror. -/
theorem oddaj_eq_mirror_ok (f : Form) (st : AppState) (now1 now2 : String)
    (pari : List String)
    (h1 : required_missing f = false)
    (h2 : build_pari f PREDMETI = Except.ok pari) :
    oddaj f st now1 now2 false MirrorOutcome.ok =
      { state := { store := { nextId := st.store.nextId + 1,
                              rows := st.store.rows ++ [inserted_record f now1 st.store.nextId pari] },
                   sheet := st.sheet ++ [sheet_row f now2 pari] },
        events := [Ev.localWrite, Ev.mirrorAttempt],
        outcome := Outcome.flashOk success_msg } := by
  simp [oddaj, h1, h2, add_vnos, inserted_record, sheet_row, predmeti_str_of]

/-- oddaj on the happy path with no mirror connection: the sheet write is
skipped with a warning, the request still succeeds. -/
theorem oddaj_eq_mirror_unavailable (f : Form) (st : AppState) (now1 now2 : String)
    (pari : List String)
    (h1 : required_missing f = false)
    (h2 : build_pari f PREDMETI = Except.ok pari) :
    oddaj f st now1 now2 false MirrorOutcome.unavailable =
      { state := { store := { nextId := st.store.nextId + 1,
                              rows := st.store.rows ++ [inserted_record f now1 st.store.nextId pari] },
                   sheet := st.sheet },
        events := [Ev.localWrite, Ev.mirrorSkipLog],
        outcome := Outcome.flashOk success_msg } := by
  simp [oddaj, h1, h2, add_vnos, inserted_record, predmeti_str_of]

/-- oddaj on the happy path when the sheet append raises: the exception is
caught and logged, the request still succeeds. -/
theorem oddaj_eq_mirror_write_error (f : Form) (st : AppState) (now1 now2 : String)
    (pari : List String)
    (h1 : required_missing f = false)
    (h2 : build_pari f PREDMETI = Except.ok pari) :
    oddaj f st now1 now2 false MirrorOutcome.writeError =
      { state := { store := { nextId := st.store.nextId + 1,
                              rows := st.store.rows ++ [inserted_record f now1 st.store.nextId pari] },
                   sheet := st.sheet },
        events := [Ev.localWrite, Ev.mirrorAttempt, Ev.mirrorFailLog],
        outcome := Outcome.flashOk success_msg } := by
  simp [oddaj, h1, h2, add_vnos, inserted_record, predmeti_str_of]

/-- A form passing the required-fields check has all five fields non-empty
after trimming. -/
theorem required_ok_fields (f : Form) (h : required_missing f = false) :
    trimF f "ime" ≠ "" ∧ trimF f "priimek" ≠ "" ∧ trimF f "email" ≠ "" ∧
    trimF f "razred" ≠ "" ∧ trimF f "oddelek" ≠ "" := by
  simp [required_missing] at h
  exact ⟨h.1, h.2.1, h.2.2.1, h.2.2.2.1, h.2.2.2.2⟩

/- ------------------------------------------------------------------ -/
/- Claim theorems                                                      -/
/- ------------------------------------------------------------------ -/

/-- C4: for every submission in which any of the five required fields
(ime, priimek, email, razred, oddelek) is missing or blank after trimming,
oddaj rejects with the single combined required-fields message, emits no
events, and persists nothing: the state is returned unchanged. -/
theorem c4_required_fields_reject (f : Form) (st : AppState) (now1 now2 : String)
    (lf : Bool) (m : MirrorOutcome)
    (h : trimF f "ime" = "" ∨ trimF f "priimek" = "" ∨ trimF f "email" = "" ∨
         trimF f "razred" = "" ∨ trimF f "oddelek" = "") :
    oddaj f st now1 now2 lf m =
      { state := st, events := [], outcome := Outcome.flashError required_msg } :=
  oddaj_eq_required f st now1 now2 lf m ((required_missing_iff f).mpr h)

/-- Witness for C4: a submission whose ime is only whitespace is rejected
with the combined message and the empty store stays empty. -/
theorem c4_witness :
    oddaj [("ime", "  "), ("priimek", "Novak"), ("email", "a@x.si"),
           ("razred", "2. letnik"), ("oddelek", "b")] app0 "t1" "t2" false MirrorOutcome.ok =
      { state := app0, events := [], outcome := Outcome.flashError required_msg } :=
  c4_required_fields_reject
    [("ime", "  "), ("priimek", "Novak"), ("email", "a@x.si"),
     ("razred", "2. letnik"), ("oddelek", "b")]
    app0 "t1" "t2" false MirrorOutcome.ok (Or.inl (by decide))

/-- C5 counterexample: add_vnos run on the empty store inserts the record
and assigns it id 1, yet its return value is None, not the newly assigned
id: the claim that add_vnos returns the new id to its caller is false. -/
theorem c5_cex_add_vnos_returns_none :
    (add_vnos st0 "2025-01-01 10:00" "Ana" "Novak" "a@x.si" "2. letnik" "b" "—").2 = none ∧
    ((add_vnos st0 "2025-01-01 10:00" "Ana" "Novak" "a@x.si" "2. letnik" "b" "—").1.rows.map
      (fun r => r.id)) = [1] ∧
    (add_vnos st0 "2025-01-01 10:00" "Ana" "Novak" "a@x.si" "2. letnik" "b" "—").2 ≠ some 1 := by
  decide

/-- C5 amended: add_vnos appends exactly one record carrying the next
auto-increment id and advances the counter, but returns None — the
assigned id is not handed back to the caller. -/
theorem c5_amended_add_vnos_inserts (st : Store)
    (now ime priimek email razred oddelek ps : String) :
    (add_vnos st now ime priimek email razred oddelek ps).2 = none ∧
    (add_vnos st now ime priimek email razred oddelek ps).1.rows =
      st.rows ++ [{ id := st.nextId, datum := now, ime := ime, priimek := priimek,
                    email := email, razred := razred, oddelek := oddelek, predmeti := ps }] ∧
    (add_vnos st now ime priimek email razred oddelek ps).1.nextId = st.nextId + 1 :=
  ⟨rfl, rfl, rfl⟩

/-- C7 counterexample: when the SQL statement raises, none of the four
store helpers ever reaches con.close() — there is no try/finally, so the
connection is not released on the error exit path, contradicting the
guaranteed-release-on-all-exit-paths claim. -/
theorem c7_cex_no_close_on_error :
    DbEv.close ∉ add_vnos_conn_trace true ∧
    DbEv.close ∉ all_vnosi_conn_trace true ∧
    DbEv.close ∉ delete_vnos_conn_trace true ∧
    DbEv.close ∉ init_db_conn_trace true ∧
    DbEv.raiseErr ∈ add_vnos_conn_trace true := by
  decide

/-- C7 amended: every store operation opens its own fresh connection (each
call's trace starts with connect, nothing is held across calls), and on the
normal path the connection is closed as the last action; but when the
database operation raises, the close is skipped and the error propagates. -/
theorem c7_amended_scoped_connections (b : Bool) :
    ((add_vnos_conn_trace b).head? = some DbEv.connect ∧
     (all_vnosi_conn_trace b).head? = some DbEv.connect ∧
     (delete_vnos_conn_trace b).head? = some DbEv.connect ∧
     (init_db_conn_trace b).head? = some DbEv.connect) ∧
    (b = false →
      (add_vnos_conn_trace b).getLast? = some DbEv.close ∧
      (all_vnosi_conn_trace b).getLast? = some DbEv.close ∧
      (delete_vnos_conn_trace b).getLast? = some DbEv.close ∧
      (init_db_conn_trace b).getLast? = some DbEv.close) ∧
    (b = true →
      DbEv.close ∉ add_vnos_conn_trace b ∧
      DbEv.close ∉ all_vnosi_conn_trace b ∧
      DbEv.close ∉ delete_vnos_conn_trace b ∧
      DbEv.close ∉ init_db_conn_trace b) := by
  cases b <;> decide

/-- Witness for the amended C7 at the non-error path: the add_vnos trace
closes its connection last. -/
theorem c7_amended_witness :
    (add_vnos_conn_trace false).getLast? = some DbEv.close ∧
    (add_vnos_conn_trace false).head? = some DbEv.connect :=
  ⟨((c7_amended_scoped_connections false).2.1 rfl).1,
   (c7_amended_scoped_connections false).1.1⟩

/-- C8: export_csv emits UTF-8 bytes prefixed with the byte-order marker;
its text is the fixed 8-column header line (ID first) followed by one
semicolon-delimited CRLF row per record, fields in header order, rows in
all_vnosi order, and all_vnosi is sorted by id descending and holds every
stored record exactly once. -/
theorem c8_export_csv_format (st : Store) :
    export_csv_bytes st = [0xEF, 0xBB, 0xBF] ++ utf8Bytes (export_csv st) ∧
    export_csv st =
      String.join (csv_row CSV_HEADER :: (all_vnosi st).map (fun r => csv_row (record_fields r))) ∧
    CSV_HEADER = ["ID", "Datum", "Ime", "Priimek", "E-pošta", "Razred", "Oddelek",
                  "Predmeti (učitelj)"] ∧
    CSV_HEADER.length = 8 ∧
    (∀ r : Record, (record_fields r).length = 8 ∧
      (record_fields r).head? = some (Nat.repr r.id)) ∧
    (∀ fields : List String,
      csv_row fields = String.intercalate ";" (fields.map csv_field) ++ "\r\n") ∧
    List.Sorted idDesc (all_vnosi st) ∧
    (all_vnosi st).Perm st.rows := by
  refine ⟨rfl, rfl, rfl, rfl, fun r => ⟨rfl, rfl⟩, fun _ => rfl, ?_, ?_⟩
  · exact List.sorted_insertionSort idDesc st.rows
  · exact List.perm_insertionSort idDesc st.rows

/-- C9: delete_vnos removes exactly the record with the given id when it is
present — the records before and after it are kept unchanged and in order —
and is a no-op leaving the store unchanged (and raising nothing; it is a
total function) when no record carries that id. -/
theorem c9_delete_exact_or_noop (st : Store) (rid : Nat) :
    ((∀ r ∈ st.rows, r.id ≠ rid) → delete_vnos st rid = st) ∧
    (∀ l1 r l2, st.rows = l1 ++ r :: l2 → r.id = rid →
      (∀ x ∈ l1, x.id ≠ rid) → (∀ x ∈ l2, x.id ≠ rid) →
      (delete_vnos st rid).rows = l1 ++ l2) ∧
    (∀ x, x ∈ (delete_vnos st rid).rows ↔ (x ∈ st.rows ∧ x.id ≠ rid)) := by
  refine ⟨?_, ?_, ?_⟩
  · intro h
    have hf : st.rows.filter (fun r => r.id != rid) = st.rows :=
      List.filter_eq_self.mpr (fun a ha => by simpa using h a ha)
    unfold delete_vnos
    rw [hf]
  · intro l1 r l2 hsplit hr h1 h2
    have hl1 : l1.filter (fun x => x.id != rid) = l1 :=
      List.filter_eq_self.mpr (fun a ha => by simpa using h1 a ha)
    have hl2 : l2.filter (fun x => x.id != rid) = l2 :=
      List.filter_eq_self.mpr (fun a ha => by simpa using h2 a ha)
    have hrr : (r.id != rid) = false := by simp [hr]
    simp only [delete_vnos, hsplit, List.filter_append, List.filter_cons, hrr,
      Bool.false_eq_true, if_false, hl1, hl2]
  · intro x
    simp [delete_vnos, List.mem_filter]

/-- Witness for C9: deleting the absent id 99 is a no-op; deleting id 1
leaves exactly the record with id 2. -/
theorem c9_witness :
    delete_vnos c9_st 99 = c9_st ∧
    (delete_vnos c9_st 1).rows =
      [{ id := 2, datum := "d2", ime := "C", priimek := "D", email := "e2",
         razred := "2. letnik", oddelek := "b", predmeti := "—" }] :=
  ⟨(c9_delete_exact_or_noop c9_st 99).1 (by decide),
   (c9_delete_exact_or_noop c9_st 1).2.1 []
     { id := 1, datum := "d1", ime := "A", priimek := "B", email := "e1",
       razred := "1. letnik", oddelek := "a", predmeti := "—" }
     [{ id := 2, datum := "d2", ime := "C", priimek := "D", email := "e2",
        razred := "2. letnik", oddelek := "b", predmeti := "—" }]
     (by decide) (by decide) (by decide) (by decide)⟩

/-- C1: in every oddaj request any mirror attempt is strictly preceded by
the completed local store write; no mirror attempt happens when the local
write did not complete (validation failure or a store fault); and for every
submission that passes validation with a healthy local store the submitter
receives the success acknowledgment whatever the mirror outcome — an
unavailable mirror is skipped with a warning log and a failing mirror write
is caught and logged, never propagated. -/
theorem c1_local_precedes_mirror (f : Form) (st : AppState) (now1 now2 : String)
    (lf : Bool) (m : MirrorOutcome) (pari : List String) :
    (Ev.mirrorAttempt ∈ (oddaj f st now1 now2 lf m).events →
      ∃ tl, (oddaj f st now1 now2 lf m).events = Ev.localWrite :: tl ∧
        Ev.mirrorAttempt ∈ tl) ∧
    (lf = true → Ev.mirrorAttempt ∉ (oddaj f st now1 now2 lf m).events) ∧
    (required_missing f = false → build_pari f PREDMETI = Except.ok pari → lf = false →
      (oddaj f st now1 now2 lf m).outcome = Outcome.flashOk success_msg ∧
      Ev.localWrite ∈ (oddaj f st now1 now2 lf m).events ∧
      (m = MirrorOutcome.unavailable → Ev.mirrorSkipLog ∈ (oddaj f st now1 now2 lf m).events) ∧
      (m = MirrorOutcome.writeError →
        Ev.mirrorAttempt ∈ (oddaj f st now1 now2 lf m).events ∧
        Ev.mirrorFailLog ∈ (oddaj f st now1 now2 lf m).events)) := by
  by_cases hreq : required_missing f = true
  · rw [oddaj_eq_required f st now1 now2 lf m hreq]
    refine ⟨?_, ?_, ?_⟩
    · intro h; exact absurd h (by simp)
    · intro _ h; exact absurd h (by simp)
    · intro hf; rw [hreq] at hf; exact absurd hf (by decide)
  · have hreq' : required_missing f = false := Bool.eq_false_iff.mpr hreq
    cases hbp : build_pari f PREDMETI with
    | error label =>
      rw [oddaj_eq_subject f st now1 now2 lf m label hreq' hbp]
      refine ⟨?_, ?_, ?_⟩
      · intro h; exact absurd h (by simp)
      · intro _ h; exact absurd h (by simp)
      · intro _ hok _
        exact Except.noConfusion hok
    | ok ps =>
      cases lf with
      | true =>
        rw [oddaj_eq_fault f st now1 now2 m ps hreq' hbp]
        refine ⟨?_, ?_, ?_⟩
        · intro h; exact absurd h (by simp)
        · intro _; simp
        · intro _ _ hlf; exact absurd hlf (by decide)
      | false =>
        cases m with
        | ok =>
          rw [oddaj_eq_mirror_ok f st now1 now2 ps hreq' hbp]
          refine ⟨?_, ?_, ?_⟩
          · intro _; exact ⟨[Ev.mirrorAttempt], rfl, by decide⟩
          · intro hlf; exact absurd hlf (by decide)
          · intro _ _ _
            refine ⟨rfl, by simp, ?_, ?_⟩
            · intro hm; exact absurd hm (by decide)
            · intro hm; exact absurd hm (by decide)
        | unavailable =>
          rw [oddaj_eq_mirror_unavailable f st now1 now2 ps hreq' hbp]
          refine ⟨?_, ?_, ?_⟩
          · intro h; exact absurd h (by simp)
          · intro hlf; exact absurd hlf (by decide)
          · intro _ _ _
            refine ⟨rfl, by simp, ?_, ?_⟩
            · intro _; simp
            · intro hm; exact absurd hm (by decide)
        | writeError =>
          rw [oddaj_eq_mirror_write_error f st now1 now2 ps hreq' hbp]
          refine ⟨?_, ?_, ?_⟩
          · intro _; exact ⟨[Ev.mirrorAttempt, Ev.mirrorFailLog], rfl, by decide⟩
          · intro hlf; exact absurd hlf (by decide)
          · intro _ _ _
            refine ⟨rfl, by simp, ?_, ?_⟩
            · intro hm; exact absurd hm (by decide)
            · intro _; exact ⟨by simp, by simp⟩

/-- Witness for C1: a valid submission whose mirror write raises still gets
the success flash; the local write heads the trace and the mirror attempt
and its failure log follow it. -/
theorem c1_witness :
    (∃ tl, (oddaj c1_wform app0 "t1" "t2" false MirrorOutcome.writeError).events =
      Ev.localWrite :: tl ∧ Ev.mirrorAttempt ∈ tl) ∧
    (oddaj c1_wform app0 "t1" "t2" false MirrorOutcome.writeError).outcome =
      Outcome.flashOk success_msg ∧
    Ev.mirrorFailLog ∈ (oddaj c1_wform app0 "t1" "t2" false MirrorOutcome.writeError).events :=
  ⟨(c1_local_precedes_mirror c1_wform app0 "t1" "t2" false MirrorOutcome.writeError
      ["Matematika (Kovač)"]).1 (by decide),
   ((c1_local_precedes_mirror c1_wform app0 "t1" "t2" false MirrorOutcome.writeError
      ["Matematika (Kovač)"]).2.2 (by decide) (by decide) rfl).1,
   (((c1_local_precedes_mirror c1_wform app0 "t1" "t2" false MirrorOutcome.writeError
      ["Matematika (Kovač)"]).2.2 (by decide) (by decide) rfl).2.2.2 rfl).2⟩

/-- C2 counterexample: a submission with a checked subject (Matematika)
whose teacher field is empty is rejected — but with the combined
required-fields message, which does not name Matematika, because the
required-fields check runs first. The unconditional claim that such a
submission is rejected "with a message naming that specific subject" is
therefore false. -/
theorem c2_cex_required_masks_subject :
    offending c2_cex_form ("mat", "Matematika") = true ∧
    oddaj c2_cex_form app0 "t1" "t2" false MirrorOutcome.ok =
      { state := app0, events := [], outcome := Outcome.flashError required_msg } ∧
    required_msg ≠ subject_msg "Matematika" := by
  decide

/-- C2 (amended with "that passes the required-fields check"): for a
submission whose five required fields are present, if some checked subject
has an empty trimmed teacher name, oddaj rejects with the message naming
exactly the first offending subject in catalog order (the catalog splits
before it into non-offending entries), no events are emitted, and the state
— in particular the local store — is returned unchanged (zero records
persisted). -/
theorem c2_first_offending_reject (f : Form) (st : AppState) (now1 now2 : String)
    (lf : Bool) (m : MirrorOutcome) (p : String × String)
    (h1 : required_missing f = false)
    (h2 : first_offending f = some p) :
    oddaj f st now1 now2 lf m =
      { state := st, events := [], outcome := Outcome.flashError (subject_msg p.2) } ∧
    (∃ l1 l2, PREDMETI = l1 ++ p :: l2 ∧ offending f p = true ∧
      ∀ q ∈ l1, offending f q = false) := by
  have herr : build_pari f PREDMETI = Except.error p.2 :=
    build_pari_error_of_find f PREDMETI p h2
  exact ⟨oddaj_eq_subject f st now1 now2 lf m p.2 h1 herr,
         find?_eq_some_split (offending f) PREDMETI p h2⟩

/-- Witness for the amended C2: the rejection names Fizika, the first
offending subject in catalog order, and the state is unchanged. -/
theorem c2_witness :
    oddaj c2_wform app0 "t1" "t2" false MirrorOutcome.ok =
      { state := app0, events := [],
        outcome := Outcome.flashError (subject_msg "Fizika") } ∧
    (∃ l1 l2, PREDMETI = l1 ++ ("fiz", "Fizika") :: l2 ∧
      offending c2_wform ("fiz", "Fizika") = true ∧
      ∀ q ∈ l1, offending c2_wform q = false) :=
  c2_first_offending_reject c2_wform app0 "t1" "t2" false MirrorOutcome.ok
    ("fiz", "Fizika") (by decide) (by decide)

/-- C3: for every valid submission (required fields present, every checked
subject carrying a non-empty trimmed teacher name, store healthy) the
persisted record's subjects summary is exactly the checked subjects'
"Label (Teacher)" strings taken in catalog order — one segment per checked
subject — joined by "; "; when no subject is checked the summary is the
single em-dash placeholder "—", which is not the empty string; and the
summary depends only on the checkbox values and the checked subjects'
teacher values, not on the order in which the form fields were submitted. -/
theorem c3_subjects_summary (f : Form) (st : AppState) (now1 now2 : String)
    (m : MirrorOutcome) (pari : List String)
    (h1 : required_missing f = false)
    (h2 : build_pari f PREDMETI = Except.ok pari) :
    pari = (checked_subjects f).map
      (fun p => p.2 ++ " (" ++ py_strip (fgetD f ("teacher_" ++ p.1) "") ++ ")") ∧
    pari.length = (checked_subjects f).length ∧
    (∃ r : Record,
      (oddaj f st now1 now2 false m).state.store.rows = st.store.rows ++ [r] ∧
      r.predmeti = (if pari.isEmpty then "—" else String.intercalate "; " pari) ∧
      (checked_subjects f = [] → r.predmeti = "—")) ∧
    (("—" : String) ≠ "") ∧
    (∀ g : Form,
      (∀ q ∈ PREDMETI, fget g ("chk_" ++ q.1) = fget f ("chk_" ++ q.1) ∧
        (fget f ("chk_" ++ q.1) = some "on" →
          fget g ("teacher_" ++ q.1) = fget f ("teacher_" ++ q.1))) →
      build_pari g PREDMETI = Except.ok pari) := by
  have hmap := build_pari_ok_eq f PREDMETI pari h2
  have hmap' : pari = (checked_subjects f).map
      (fun p => p.2 ++ " (" ++ py_strip (fgetD f ("teacher_" ++ p.1) "") ++ ")") := hmap
  have hempty : checked_subjects f = [] → pari = [] := by
    intro hc
    rw [hmap', hc]
    rfl
  have hex : ∃ r : Record,
      (oddaj f st now1 now2 false m).state.store.rows = st.store.rows ++ [r] ∧
      r.predmeti = (if pari.isEmpty then "—" else String.intercalate "; " pari) ∧
      (checked_subjects f = [] → r.predmeti = "—") := by
    cases m with
    | ok =>
      rw [oddaj_eq_mirror_ok f st now1 now2 pari h1 h2]
      refine ⟨inserted_record f now1 st.store.nextId pari, rfl, rfl, ?_⟩
      intro hc
      simp [inserted_record, predmeti_str_of, hempty hc]
    | unavailable =>
      rw [oddaj_eq_mirror_unavailable f st now1 now2 pari h1 h2]
      refine ⟨inserted_record f now1 st.store.nextId pari, rfl, rfl, ?_⟩
      intro hc
      simp [inserted_record, predmeti_str_of, hempty hc]
    | writeError =>
      rw [oddaj_eq_mirror_write_error f st now1 now2 pari h1 h2]
      refine ⟨inserted_record f now1 st.store.nextId pari, rfl, rfl, ?_⟩
      intro hc
      simp [inserted_record, predmeti_str_of, hempty hc]
  refine ⟨hmap', ?_, hex, by decide, ?_⟩
  · rw [hmap', List.length_map]
  · intro g hg
    exact (build_pari_ext f g PREDMETI hg).trans h2

/-- Witness for C3: two checked subjects give exactly two segments in
catalog order (Matematika before Fizika although Fizika was submitted
first), joined by "; " in the single persisted record. -/
theorem c3_witness :
    (["Matematika (Gauss)", "Fizika (Newton)"] : List String).length =
      (checked_subjects c3_wform).length ∧
    (∃ r : Record,
      (oddaj c3_wform app0 "t1" "t2" false MirrorOutcome.ok).state.store.rows =
        app0.store.rows ++ [r] ∧
      r.predmeti = (if (["Matematika (Gauss)", "Fizika (Newton)"] : List String).isEmpty
        then "—" else String.intercalate "; " ["Matematika (Gauss)", "Fizika (Newton)"]) ∧
      (checked_subjects c3_wform = [] → r.predmeti = "—")) :=
  ⟨(c3_subjects_summary c3_wform app0 "t1" "t2" MirrorOutcome.ok
      ["Matematika (Gauss)", "Fizika (Newton)"] (by decide) (by decide)).2.1,
   (c3_subjects_summary c3_wform app0 "t1" "t2" MirrorOutcome.ok
      ["Matematika (Gauss)", "Fizika (Newton)"] (by decide) (by decide)).2.2.1⟩

/-- C6 counterexample: a direct POST with razred "7. letnik" (not one of
the four grade levels) and oddelek "x" (not one of the six sections) passes
validation and is persisted: the intake flow does create records with
values outside the enumerated sets, because the sets are only offered as
client-side select options, never enforced server-side. -/
theorem c6_cex_out_of_set_persisted :
    (oddaj c6_cex_form app0 "t1" "t2" false MirrorOutcome.ok).outcome =
      Outcome.flashOk success_msg ∧
    ((oddaj c6_cex_form app0 "t1" "t2" false MirrorOutcome.ok).state.store.rows.map
      (fun r => (r.razred, r.oddelek))) = [("7. letnik", "x")] ∧
    ("7. letnik" ∉ RAZREDI) ∧ ("x" ∉ ODDELKI) := by
  decide

/-- C6 amended: the intake flow checks grade_level and section only for
non-emptiness after trimming, so every record it adds to the store has
non-empty razred and oddelek, but membership in the four-value and
six-value sets offered by the form is not enforced server-side. -/
theorem c6_amended_nonempty_only (f : Form) (st : AppState) (now1 now2 : String)
    (lf : Bool) (m : MirrorOutcome) :
    ∀ r ∈ (oddaj f st now1 now2 lf m).state.store.rows,
      r ∈ st.store.rows ∨ (r.razred ≠ "" ∧ r.oddelek ≠ "") := by
  by_cases hreq : required_missing f = true
  · rw [oddaj_eq_required f st now1 now2 lf m hreq]
    intro r hr
    exact Or.inl hr
  · have hreq' : required_missing f = false := Bool.eq_false_iff.mpr hreq
    have hfields := required_ok_fields f hreq'
    cases hbp : build_pari f PREDMETI with
    | error label =>
      rw [oddaj_eq_subject f st now1 now2 lf m label hreq' hbp]
      intro r hr
      exact Or.inl hr
    | ok ps =>
      cases lf with
      | true =>
        rw [oddaj_eq_fault f st now1 now2 m ps hreq' hbp]
        intro r hr
        exact Or.inl hr
      | false =>
        have hnew : ∀ r, r = inserted_record f now1 st.store.nextId ps →
            r.razred ≠ "" ∧ r.oddelek ≠ "" := by
          intro r hr
          rw [hr]
          exact ⟨hfields.2.2.2.1, hfields.2.2.2.2⟩
        cases m with
        | ok =>
          rw [oddaj_eq_mirror_ok f st now1 now2 ps hreq' hbp]
          intro r hr
          rcases List.mem_append.mp hr with h | h
          · exact Or.inl h
          · exact Or.inr (hnew r (List.mem_singleton.mp h))
        | unavailable =>
          rw [oddaj_eq_mirror_unavailable f st now1 now2 ps hreq' hbp]
          intro r hr
          rcases List.mem_append.mp hr with h | h
          · exact Or.inl h
          · exact Or.inr (hnew r (List.mem_singleton.mp h))
        | writeError =>
          rw [oddaj_eq_mirror_write_error f st now1 now2 ps hreq' hbp]
          intro r hr
          rcases List.mem_append.mp hr with h | h
          · exact Or.inl h
          · exact Or.inr (hnew r (List.mem_singleton.mp h))

/-- Witness for the amended C6: the record persisted from the out-of-set
submission has non-empty razred and oddelek. -/
theorem c6_amended_witness :
    ({ id := 1, datum := "t1", ime := "Ana", priimek := "Novak", email := "a@x.si",
       razred := "7. letnik", oddelek := "x", predmeti := "—" } : Record) ∈
        app0.store.rows ∨
    (("7. letnik" : String) ≠ "" ∧ ("x" : String) ≠ "") :=
  c6_amended_nonempty_only c6_cex_form app0 "t1" "t2" false MirrorOutcome.ok
    { id := 1, datum := "t1", ime := "Ana", priimek := "Novak", email := "a@x.si",
      razred := "7. letnik", oddelek := "x", predmeti := "—" } (by decide)

/-- C10: a subject counts as checked exactly when its checkbox form value
is the string "on"; an unchecked subject never appears among the checked
subjects and is never the offending subject of a rejection; and any teacher
value supplied for unchecked subjects is ignored: a form differing from f
only in the teacher values of unchecked subjects produces the same
build_pari result (same summary, same rejection). -/
theorem c10_checkbox_on_semantics (f g : Form) (p : String × String)
    (hp : p ∈ PREDMETI)
    (hg : ∀ q ∈ PREDMETI, fget g ("chk_" ++ q.1) = fget f ("chk_" ++ q.1) ∧
      (fget f ("chk_" ++ q.1) = some "on" →
        fget g ("teacher_" ++ q.1) = fget f ("teacher_" ++ q.1))) :
    (fget f ("chk_" ++ p.1) = some "on" ↔ p ∈ checked_subjects f) ∧
    (fget f ("chk_" ++ p.1) ≠ some "on" →
      p ∉ checked_subjects f ∧ first_offending f ≠ some p) ∧
    build_pari g PREDMETI = build_pari f PREDMETI := by
  refine ⟨?_, ?_, build_pari_ext f g PREDMETI hg⟩
  · constructor
    · intro h
      exact List.mem_filter.mpr ⟨hp, beq_iff_eq.mpr h⟩
    · intro h
      exact beq_iff_eq.mp (List.mem_filter.mp h).2
  · intro h
    constructor
    · intro hmem
      exact h (beq_iff_eq.mp (List.mem_filter.mp hmem).2)
    · intro hfo
      have hoff : offending f p = true := List.find?_some hfo
      exact h (beq_iff_eq.mp ((Bool.and_eq_true _ _).mp hoff).1)

/-- Witness for C10: Fizika's checkbox value "maybe" does not count as
checked, Fizika cannot be the offending subject, and adding a teacher value
for it changes nothing in build_pari. -/
theorem c10_witness :
    (fget c10_wf ("chk_" ++ "fiz") = some "on" ↔
      ("fiz", "Fizika") ∈ checked_subjects c10_wf) ∧
    (fget c10_wf ("chk_" ++ "fiz") ≠ some "on" →
      ("fiz", "Fizika") ∉ checked_subjects c10_wf ∧
      first_offending c10_wf ≠ some ("fiz", "Fizika")) ∧
    build_pari c10_wg PREDMETI = build_pari c10_wf PREDMETI :=
  c10_checkbox_on_semantics c10_wf c10_wg ("fiz", "Fizika") (by decide) (by decide)
